import Mathlib

/-!
Shallow embedding of the response validator in `lib/validators.ts` of the
Neuro-SymAi repository (the `IndonesianLawValidator` class), together with
theorems about it.

Modelling conventions:
* JS strings are modelled as `String` / `List Char`; the concrete inputs used
  in the theorems below are ASCII, where JS UTF-16 code-unit indexing and
  `toLowerCase` coincide with per-`Char` operations.
* JS numbers are modelled as `ℚ` (every quantity the validator computes is a
  ratio of small integers; no theorem below depends on binary-float rounding).
* The ten `CITATION_PATTERNS` regexes are module-level constants with the `g`
  flag, so their `lastIndex` fields survive between calls.  That mutable state
  is made explicit: a value of type `List Nat` (one `lastIndex` per pattern)
  is threaded through `validateSourceCitations` / `validateResponse`.
  `String.prototype.matchAll` clones the regex (inheriting `lastIndex`,
  mutating only the clone), while `RegExp.prototype.test` searches from
  `lastIndex` and then sets it to the match end (or to 0 on failure), exactly
  as in the ECMAScript specification.
* The regexes used by the checks are rigid token sequences (case-insensitive
  literals, `\s+`, `\s*`, `\.?`, `\d+`, `\d{4}`, `[A-Z]?`, `[A-Z]+`); for
  such patterns JS backtracking search is equivalent to the deterministic
  maximal-munch matcher `matchToks` below (at every junction the adjacent
  character classes are disjoint, so no backtracking can occur).
  The `A.*B` safety patterns and `\bword\b` / `\d+[\.\)]\s` / `\w`-based
  patterns are only ever used through `test`/`match` as pure existence checks
  on regex objects that are freshly created at each call, so they are
  modelled by decidable existence of an occurrence.
* `stringSimilarity.compareTwoStrings` is the Sørensen–Dice bigram
  coefficient of the `string-similarity` npm package (whitespace stripped,
  multiset bigram intersection), transcribed below over `ℚ`.
* The seven checks run sequentially inside `Promise.all` (their bodies
  contain no `await`), so sequential state threading is exact.
-/

/-- JS `\s` (whitespace class, also used by `trim` and `split(/\s+/)`). -/
def isJsWs (c : Char) : Bool :=
  c = ' ' || c = '\t' || c = '\n' || c = '\r' || c.val = 11 || c.val = 12 ||
  c.val = 0xa0 || c.val = 0x1680 || (0x2000 ≤ c.val && c.val ≤ 0x200a) ||
  c.val = 0x2028 || c.val = 0x2029 || c.val = 0x202f || c.val = 0x205f ||
  c.val = 0x3000 || c.val = 0xfeff

/-- JS line terminators (what `.` does not match without the `s` flag). -/
def isLineTerm (c : Char) : Bool :=
  c = '\n' || c = '\r' || c.val = 0x2028 || c.val = 0x2029

/-- JS `\d`. -/
def isDigitCh (c : Char) : Bool := '0' ≤ c && c ≤ '9'

/-- `[A-Z]` under the `i` flag (non-Unicode mode): ASCII letters only. -/
def isAlphaCh (c : Char) : Bool := ('A' ≤ c && c ≤ 'Z') || ('a' ≤ c && c ≤ 'z')

/-- JS `\w`: `[A-Za-z0-9_]`. -/
def isWordCh (c : Char) : Bool := isAlphaCh c || isDigitCh c || c = '_'

/-- Case-insensitive character comparison (ASCII case folding, as JS
`Canonicalize` does for the ASCII inputs used here). -/
def charCI (a b : Char) : Bool := a.toLower = b.toLower

/-- `String.prototype.toLowerCase`, per character (ASCII). -/
def lowerChars (l : List Char) : List Char := l.map Char.toLower

/-- `String.prototype.trim`. -/
def trimChars (l : List Char) : List Char :=
  ((l.dropWhile isJsWs).reverse.dropWhile isJsWs).reverse

/-- Occurrence of `n` in `h` at index `i` (case-sensitive). -/
def occursAt (h n : List Char) (i : Nat) : Bool :=
  decide ((h.drop i).take n.length = n)

/-- `String.prototype.indexOf` (first occurrence, `none` for `-1`). -/
def jsIndexOf (h n : List Char) : Option Nat :=
  (List.range (h.length + 1)).find? (fun i => occursAt h n i)

/-- `String.prototype.includes`. -/
def jsIncludes (h n : List Char) : Bool := (jsIndexOf h n).isSome

/-- Consume the case-insensitive literal `p` from the front of a stream. -/
def ciConsume : List Char → List Char → Option (List Char)
  | [], s => some s
  | _ :: _, [] => none
  | p :: ps, c :: cs => if charCI p c then ciConsume ps cs else none

/-- Case-insensitive occurrence of `pat` in `s` at index `i`. -/
def occursAtCI (s pat : List Char) (i : Nat) : Bool :=
  (ciConsume pat (s.drop i)).isSome

/-- `split` on a regex `[c…]+` (maximal separator runs); reproduces the JS
boundary behaviour: `"" → [""]`, leading/trailing runs yield empty pieces.
`fuel` only serves termination and is always called with `fuel = s.length`. -/
def splitRunsGo (p : Char → Bool) : Nat → List Char → List Char → List (List Char)
  | _, [], acc => [acc.reverse]
  | 0, _ :: _, acc => [acc.reverse]
  | fuel + 1, c :: cs, acc =>
    if p c then acc.reverse :: splitRunsGo p fuel (cs.dropWhile p) []
    else splitRunsGo p fuel cs (c :: acc)

/-- `String.prototype.split(/[…]+/)`. -/
def splitRuns (p : Char → Bool) (s : List Char) : List (List Char) :=
  splitRunsGo p s.length s []

/-- `[...new Set(xs)]`: deduplication keeping first occurrences. -/
def dedupKeepGo : List String → List String → List String
  | [], _ => []
  | x :: xs, seen =>
    if seen.contains x then dedupKeepGo xs seen else x :: dedupKeepGo xs (x :: seen)

/-- `[...new Set(xs)]`. -/
def dedupKeep (l : List String) : List String := dedupKeepGo l []

/-- `Set.prototype.add` in insertion order. -/
def addUnique (l : List String) (s : String) : List String :=
  if l.contains s then l else l ++ [s]

/-- JS `String.prototype.replace('_', ' ')`: only the FIRST underscore is
replaced (the pattern is a plain string, not a global regex). -/
def replaceFirstUnderscore : List Char → List Char
  | [] => []
  | c :: cs => if c = '_' then ' ' :: cs else c :: replaceFirstUnderscore cs

/-! ### `string-similarity` v4 `compareTwoStrings` (Sørensen–Dice bigrams) -/

/-- Strip all whitespace, as `replace(/\s+/g, '')` does. -/
def stripWs (l : List Char) : List Char := l.filter (fun c => !(isJsWs c))

/-- All adjacent character pairs. -/
def bigrams : List Char → List (Char × Char)
  | a :: b :: rest => (a, b) :: bigrams (b :: rest)
  | _ => []

/-- Multiset bigram intersection size, consuming available counts exactly as
the library's `Map`-based loop does. -/
def diceInterGo : List (Char × Char) → List (Char × Char) → Nat
  | _, [] => 0
  | avail, b :: bs =>
    if avail.contains b then 1 + diceInterGo (avail.erase b) bs
    else diceInterGo avail bs

/-- `stringSimilarity.compareTwoStrings`, over `ℚ`. -/
def compareTwoStrings (a b : List Char) : ℚ :=
  let f := stripWs a
  let s := stripWs b
  if f = s then 1
  else if f.length < 2 || s.length < 2 then 0
  else (2 * (diceInterGo (bigrams f) (bigrams s) : ℚ)) /
    ((f.length + s.length - 2 : Nat) : ℚ)

/-! ### Rigid-regex tokens for the ten `CITATION_PATTERNS` -/

/-- One atom of a citation regex. -/
inductive Tok where
  | lit (p : List Char)
  | ws1
  | ws0
  | optDot
  | digits1
  | digitsN (n : Nat)
  | alphaOpt
  | alpha1
deriving DecidableEq

/-- Match one token at the front of a stream (deterministic maximal munch;
equivalent to JS backtracking for the patterns used, see the header note). -/
def matchTok : Tok → List Char → Option (List Char)
  | .lit p, s => ciConsume p s
  | .ws1, [] => none
  | .ws1, c :: rest => if isJsWs c then some (rest.dropWhile isJsWs) else none
  | .ws0, s => some (s.dropWhile isJsWs)
  | .optDot, [] => some []
  | .optDot, c :: rest => if c = '.' then some rest else some (c :: rest)
  | .digits1, [] => none
  | .digits1, c :: rest => if isDigitCh c then some (rest.dropWhile isDigitCh) else none
  | .digitsN n, s =>
    if (s.take n).length = n && (s.take n).all isDigitCh then some (s.drop n) else none
  | .alphaOpt, [] => some []
  | .alphaOpt, c :: rest => if isAlphaCh c then some rest else some (c :: rest)
  | .alpha1, [] => none
  | .alpha1, c :: rest => if isAlphaCh c then some (rest.dropWhile isAlphaCh) else none

/-- Match a token sequence at the front of a stream, returning the rest. -/
def matchToks : List Tok → List Char → Option (List Char)
  | [], s => some s
  | t :: ts, s =>
    match matchTok t s with
    | some s' => matchToks ts s'
    | none => none

/-- Length of the match of `toks` at the front of `cs`, if any. -/
def matchToksLen (toks : List Tok) (cs : List Char) : Option Nat :=
  (matchToks toks cs).map (fun rest => cs.length - rest.length)

/-- Leftmost match of `toks` in `s` starting at position `≥ li`:
`some (start, end)`.  This is `RegExpBuiltinExec`'s forward search. -/
def findFrom (toks : List Tok) (s : List Char) (li : Nat) : Option (Nat × Nat) :=
  (List.range (s.length + 1)).findSome? fun p =>
    if li ≤ p then (matchToksLen toks (s.drop p)).map (fun l => (p, p + l)) else none

/-- `String.prototype.matchAll` on a global regex whose clone starts at
`lastIndex = li`; returns the matched substrings.  The original regex is not
mutated.  `fuel` only serves termination (`jsMatchAll` supplies enough). -/
def jsMatchAllGo (toks : List Tok) (s : List Char) : Nat → Nat → List (List Char)
  | 0, _ => []
  | fuel + 1, li =>
    match findFrom toks s li with
    | none => []
    | some pe =>
      ((s.drop pe.1).take (pe.2 - pe.1)) ::
        jsMatchAllGo toks s fuel (if pe.2 = pe.1 then pe.1 + 1 else pe.2)

/-- `String.prototype.matchAll` (all matched substrings, in order). -/
def jsMatchAll (toks : List Tok) (s : List Char) (li : Nat) : List (List Char) :=
  jsMatchAllGo toks s (s.length + 1) li

/-- `RegExp.prototype.test` on a global regex: search from `lastIndex = li`;
on success the new `lastIndex` is the match end, on failure it is 0. -/
def jsTest (toks : List Tok) (t : List Char) (li : Nat) : Bool × Nat :=
  match findFrom toks t li with
  | some pe => (true, pe.2)
  | none => (false, 0)

/-- `Array.prototype.some(pattern => pattern.test(t))` over a pattern list
paired with its `lastIndex` states: short-circuits on the first success,
returning the updated states. -/
def someTest : List (List Tok) → List Nat → List Char → Bool × List Nat
  | [], st, _ => (false, st)
  | _ :: _, [], _ => (false, [])
  | p :: ps, li :: lis, t =>
    let pr := jsTest p t li
    if pr.1 then (true, pr.2 :: lis)
    else ((someTest ps lis t).1, pr.2 :: (someTest ps lis t).2)

/-! ### Data model (`ValidationResult`, `ValidationIssue`, …) -/

/-- `ValidationIssue.severity`. -/
inductive Severity where
  | LOW | MEDIUM | HIGH | CRITICAL
deriving DecidableEq

/-- `ValidationIssue.type`. -/
inductive IssueType where
  | TOPIC_IRRELEVANT | MISSING_SOURCE | HALLUCINATION | INCONSISTENCY
  | INCOMPLETE | UNSAFE_CONTENT | LOW_QUALITY
deriving DecidableEq

/-- One entry of `ValidationResult.issues`. -/
structure ValidationIssue where
  type : IssueType
  severity : Severity
  message : String
  suggestion : Option String
deriving DecidableEq

/-- The anonymous `{score, maxScore, issues, sources}` record every check
returns. -/
structure CheckResult where
  score : ℚ
  maxScore : ℚ
  issues : List ValidationIssue
  sources : List String
deriving DecidableEq

/-- The result of `validateResponse`. -/
structure ValidationResult where
  isValid : Bool
  validatedText : String
  confidence : ℚ
  issues : List ValidationIssue
  sources : List String
  suggestions : Option (List String)
deriving DecidableEq

/-- `LegalSource.type`. -/
inductive CitationType where
  | UU | PERPPU | PERPRES | PERATURAN | PUTUSAN | KUHP | KUHPERDATA | UUD
deriving DecidableEq

/-! ### Knowledge base and configuration data (`INDONESIAN_LAW_KB`,
`LEGAL_KEYWORDS`, `CITATION_PATTERNS`) -/

/-- `LEGAL_KEYWORDS.positive`. -/
def positiveKeywords : List String :=
  ["undang-undang", "uu", "perppu", "perpres", "peraturan", "pasal", "ayat",
   "kuhp", "kuhperdata", "kuhap", "kuhd", "uud", "konstitusi",
   "hukum", "pidana", "perdata", "administrasi", "tata usaha negara",
   "mahkamah", "pengadilan", "hakim", "jaksa", "advokat", "pengacara",
   "gugatan", "tuntutan", "dakwaan", "putusan", "vonis", "eksekusi",
   "pelanggaran", "kejahatan", "tindak pidana", "delik", "perbuatan melawan hukum",
   "perjanjian", "kontrak", "wanprestasi", "ganti rugi", "denda",
   "hak asasi", "ham", "kebebasan", "demokrasi", "rule of law"]

/-- `LEGAL_KEYWORDS.negative`. -/
def negativeKeywords : List String :=
  ["resep", "masakan", "olahraga", "musik", "film", "game", "teknologi",
   "programming", "coding", "matematika", "fisika", "kimia", "biologi",
   "agama", "fikih", "hadits", "tafsir", "ibadah", "shalat", "puasa",
   "ekonomi", "bisnis", "investasi", "saham", "cryptocurrency",
   "politik", "partai", "pemilu", "kampanye", "ideologi"]

/-- `INDONESIAN_LAW_KB.constitutionalLaw`. -/
def constitutionalLaw : List (String × String) :=
  [("UUD 1945 Pasal 1", "Negara Indonesia ialah Negara Kesatuan, yang berbentuk Republik"),
   ("UUD 1945 Pasal 27", "Segala warga negara bersamaan kedudukannya di dalam hukum dan pemerintahan"),
   ("UUD 1945 Pasal 28", "Kemerdekaan berserikat dan berkumpul, mengeluarkan pikiran dengan lisan dan tulisan"),
   ("UUD 1945 Pasal 28A", "Setiap orang berhak untuk hidup serta berhak mempertahankan hidup dan kehidupannya"),
   ("UUD 1945 Pasal 28D", "Setiap orang berhak atas pengakuan, jaminan, perlindungan, dan kepastian hukum"),
   ("UUD 1945 Pasal 28H", "Setiap orang berhak hidup sejahtera lahir dan batin, bertempat tinggal")]

/-- `INDONESIAN_LAW_KB.criminalLaw`. -/
def criminalLaw : List (String × String) :=
  [("KUHP Pasal 362", "Pencurian diancam dengan pidana penjara paling lama lima tahun"),
   ("KUHP Pasal 338", "Pembunuhan diancam dengan pidana penjara paling lama lima belas tahun"),
   ("KUHP Pasal 351", "Penganiayaan diancam dengan pidana penjara paling lama dua tahun delapan bulan"),
   ("KUHP Pasal 372", "Penggelapan diancam dengan pidana penjara paling lama empat tahun"),
   ("KUHP Pasal 378", "Penipuan diancam dengan pidana penjara paling lama empat tahun")]

/-- `INDONESIAN_LAW_KB.civilLaw`. -/
def civilLaw : List (String × String) :=
  [("KUHPerdata Pasal 1320", "Syarat sahnya perjanjian: sepakat, cakap, hal tertentu, sebab halal"),
   ("KUHPerdata Pasal 1365", "Perbuatan melawan hukum yang menimbulkan kerugian wajib mengganti"),
   ("KUHPerdata Pasal 1131", "Segala kebendaan si berutang menjadi tanggungan untuk segala perikatan"),
   ("KUHPerdata Pasal 584", "Hak milik adalah hak untuk menikmati kegunaan suatu kebendaan")]

/-- `INDONESIAN_LAW_KB.administrativeLaw` (not consulted by any check). -/
def administrativeLaw : List (String × String) :=
  [("UU No. 30 Tahun 2014", "Administrasi Pemerintahan"),
   ("UU No. 25 Tahun 2009", "Pelayanan Publik"),
   ("UU No. 14 Tahun 2008", "Keterbukaan Informasi Publik")]

/-- `INDONESIAN_LAW_KB.commonMisconceptions` (keys with underscores). -/
def commonMisconceptions : List (String × String) :=
  [("pidana_mati_dihapus", "SALAH: Pidana mati masih berlaku di Indonesia berdasarkan KUHP"),
   ("poligami_bebas", "SALAH: Poligami harus mendapat izin pengadilan dengan syarat ketat"),
   ("hukum_adat_tidak_berlaku", "SALAH: Hukum adat diakui sepanjang tidak bertentangan dengan UU")]

/-- The `knowledgeEntries` array built in `detectHallucinations`
(constitutional ++ criminal ++ civil; administrative law is not included). -/
def knowledgeEntries : List (String × String) :=
  constitutionalLaw ++ criminalLaw ++ civilLaw

/-- `assessFormalLanguage`'s `formalWords`. -/
def formalWords : List String :=
  ["berdasarkan", "sebagaimana", "dimaksud", "ketentuan", "peraturan",
   "undang-undang", "pasal", "ayat", "huruf", "angka", "jo", "juncto"]

/-- The ten `CITATION_PATTERNS` regexes as rigid token sequences, in source
order:
`/UU\s+No\.?\s*(\d+)\s+Tahun\s+(\d{4})/gi`,
`/Undang-Undang\s+Nomor\s+(\d+)\s+Tahun\s+(\d{4})/gi`,
`/Perppu\s+No\.?\s*(\d+)\/(\d{4})/gi`,
`/Perpres\s+No\.?\s*(\d+)\s+Tahun\s+(\d{4})/gi`,
`/KUHP\s+Pasal\s+(\d+)/gi`, `/KUHPerdata\s+Pasal\s+(\d+)/gi`,
`/KUHAP\s+Pasal\s+(\d+)/gi`, `/UUD\s+1945\s+Pasal\s+(\d+[A-Z]?)/gi`,
`/Putusan\s+MK\s+No\.?\s*(\d+\/[A-Z]+-[A-Z]+\/\d{4})/gi`,
`/Putusan\s+MA\s+No\.?\s*(\d+\s*K\/[A-Z]+\/\d{4})/gi`. -/
def CITATION_PATTERNS : List (List Tok) :=
  [[Tok.lit ("UU".data), Tok.ws1, Tok.lit ("No".data), Tok.optDot, Tok.ws0,
    Tok.digits1, Tok.ws1, Tok.lit ("Tahun".data), Tok.ws1, Tok.digitsN 4],
   [Tok.lit ("Undang-Undang".data), Tok.ws1, Tok.lit ("Nomor".data), Tok.ws1,
    Tok.digits1, Tok.ws1, Tok.lit ("Tahun".data), Tok.ws1, Tok.digitsN 4],
   [Tok.lit ("Perppu".data), Tok.ws1, Tok.lit ("No".data), Tok.optDot, Tok.ws0,
    Tok.digits1, Tok.lit ("/".data), Tok.digitsN 4],
   [Tok.lit ("Perpres".data), Tok.ws1, Tok.lit ("No".data), Tok.optDot, Tok.ws0,
    Tok.digits1, Tok.ws1, Tok.lit ("Tahun".data), Tok.ws1, Tok.digitsN 4],
   [Tok.lit ("KUHP".data), Tok.ws1, Tok.lit ("Pasal".data), Tok.ws1, Tok.digits1],
   [Tok.lit ("KUHPerdata".data), Tok.ws1, Tok.lit ("Pasal".data), Tok.ws1, Tok.digits1],
   [Tok.lit ("KUHAP".data), Tok.ws1, Tok.lit ("Pasal".data), Tok.ws1, Tok.digits1],
   [Tok.lit ("UUD".data), Tok.ws1, Tok.lit ("1945".data), Tok.ws1,
    Tok.lit ("Pasal".data), Tok.ws1, Tok.digits1, Tok.alphaOpt],
   [Tok.lit ("Putusan".data), Tok.ws1, Tok.lit ("MK".data), Tok.ws1,
    Tok.lit ("No".data), Tok.optDot, Tok.ws0, Tok.digits1, Tok.lit ("/".data),
    Tok.alpha1, Tok.lit ("-".data), Tok.alpha1, Tok.lit ("/".data), Tok.digitsN 4],
   [Tok.lit ("Putusan".data), Tok.ws1, Tok.lit ("MA".data), Tok.ws1,
    Tok.lit ("No".data), Tok.optDot, Tok.ws0, Tok.digits1, Tok.ws0,
    Tok.lit ("K".data), Tok.lit ("/".data), Tok.alpha1, Tok.lit ("/".data),
    Tok.digitsN 4]]

/-- The `lastIndex` state of the ten shared pattern objects at module load
(each regex starts with `lastIndex = 0`). -/
def initCitState : List Nat := List.replicate 10 0

/-! ### Issue records (verbatim messages/suggestions from the source) -/

/-- CRITICAL `TOPIC_IRRELEVANT` of `validateTopicRelevance`. -/
def topicCriticalIssue : ValidationIssue :=
  { type := .TOPIC_IRRELEVANT, severity := .CRITICAL,
    message := "Query appears to be outside Indonesian law topics",
    suggestion := some "Please ask about Indonesian laws, regulations, or legal procedures" }

/-- MEDIUM `TOPIC_IRRELEVANT` of `validateTopicRelevance`. -/
def topicMediumIssue : ValidationIssue :=
  { type := .TOPIC_IRRELEVANT, severity := .MEDIUM,
    message := "Response contains some non-legal content",
    suggestion := some "Focus the response strictly on Indonesian legal matters" }

/-- CRITICAL `MISSING_SOURCE` of `validateSourceCitations` (zero citations). -/
def missingSourceCriticalIssue : ValidationIssue :=
  { type := .MISSING_SOURCE, severity := .CRITICAL,
    message := "No legal source citations found in response",
    suggestion := some "Include specific references to Indonesian laws (UU, KUHP, etc.) with article numbers" }

/-- MEDIUM `MISSING_SOURCE` of `validateSourceCitations` (too few citations). -/
def missingSourceMediumIssue : ValidationIssue :=
  { type := .MISSING_SOURCE, severity := .MEDIUM,
    message := "Insufficient source citations for response length",
    suggestion := some "Add more specific legal references to support claims" }

/-- LOW `MISSING_SOURCE` of `validateSourceCitations` (malformed citation). -/
def formatLowIssue (t : List Char) : ValidationIssue :=
  { type := .MISSING_SOURCE, severity := .LOW,
    message := "Citation format may be incorrect: " ++ String.mk t,
    suggestion := some "Use standard Indonesian legal citation format" }

/-- HIGH `HALLUCINATION` of `detectHallucinations` (known misconception). -/
def misconceptionIssue (truth : String) : ValidationIssue :=
  { type := .HALLUCINATION, severity := .HIGH,
    message := "Potential misconception detected: " ++ truth,
    suggestion := some "Verify this claim against current Indonesian law" }

/-- MEDIUM `HALLUCINATION` of `detectHallucinations` (KB divergence). -/
def kbDivergenceIssue (key : String) : ValidationIssue :=
  { type := .HALLUCINATION, severity := .MEDIUM,
    message := "Content about " ++ key ++ " may not align with established law",
    suggestion := some "Double-check this legal provision" }

/-- LOW `HALLUCINATION` of `detectHallucinations` (absolute statement). -/
def absoluteStatementIssue : ValidationIssue :=
  { type := .HALLUCINATION, severity := .LOW,
    message := "Absolute statements should be avoided without clear legal basis",
    suggestion := some "Use more qualified language or provide specific citations" }

/-- HIGH `INCONSISTENCY` of `checkLogicalConsistency` (contradictory pair). -/
def pairIssue (pos neg : String) : ValidationIssue :=
  { type := .INCONSISTENCY, severity := .HIGH,
    message := "Potential contradiction found between \"" ++ pos ++ "\" and \"" ++ neg ++ "\"",
    suggestion := some "Clarify the specific circumstances for each statement" }

/-- LOW `INCONSISTENCY` of `checkLogicalConsistency` (weak flow). -/
def flowIssue : ValidationIssue :=
  { type := .INCONSISTENCY, severity := .LOW,
    message := "Response may lack logical flow between statements",
    suggestion := some "Ensure ideas are connected and build upon each other" }

/-- MEDIUM `INCOMPLETE` of `validateCompleteness` (missing steps). -/
def stepsIssue : ValidationIssue :=
  { type := .INCOMPLETE, severity := .MEDIUM,
    message := "Procedural query should include step-by-step guidance",
    suggestion := some "Provide numbered steps or clear sequence of actions" }

/-- MEDIUM `INCOMPLETE` of `validateCompleteness` (too brief). -/
def briefIssue : ValidationIssue :=
  { type := .INCOMPLETE, severity := .MEDIUM,
    message := "Response appears too brief for the complexity of the query",
    suggestion := some "Provide more detailed explanation with relevant context" }

/-- LOW `INCOMPLETE` of `validateCompleteness` (missing definition). -/
def definitionIssue : ValidationIssue :=
  { type := .INCOMPLETE, severity := .LOW,
    message := "Definition query should include clear definition",
    suggestion := some "Provide explicit definition using \"adalah\" or \"yaitu\"" }

/-- CRITICAL `UNSAFE_CONTENT` of `checkUnsafeContent`. -/
def unsafeCriticalIssue : ValidationIssue :=
  { type := .UNSAFE_CONTENT, severity := .CRITICAL,
    message := "Response contains potentially harmful legal advice",
    suggestion := some "Focus on legal compliance and proper procedures instead" }

/-- HIGH `UNSAFE_CONTENT` of `checkUnsafeContent`. -/
def unsafeHighIssue : ValidationIssue :=
  { type := .UNSAFE_CONTENT, severity := .HIGH,
    message := "Response provides inappropriate legal assurances",
    suggestion := some "Avoid giving absolute guarantees about legal outcomes" }

/-- MEDIUM `LOW_QUALITY` of `assessQuality` (too short). -/
def tooShortIssue : ValidationIssue :=
  { type := .LOW_QUALITY, severity := .MEDIUM,
    message := "Response is too short to be informative",
    suggestion := some "Provide more detailed explanation" }

/-- LOW `LOW_QUALITY` of `assessQuality` (repetitive). -/
def repetitiveIssue : ValidationIssue :=
  { type := .LOW_QUALITY, severity := .LOW,
    message := "Response contains repetitive content",
    suggestion := some "Vary the language and avoid redundancy" }

/-- LOW `LOW_QUALITY` of `assessQuality` (informal language). -/
def informalIssue : ValidationIssue :=
  { type := .LOW_QUALITY, severity := .LOW,
    message := "Response should use more formal legal language",
    suggestion := some "Use appropriate legal terminology and formal Indonesian" }

/-- The single CRITICAL issue of the catch-block fallback result. -/
def systemErrorIssue : ValidationIssue :=
  { type := .LOW_QUALITY, severity := .CRITICAL,
    message := "Validation system error occurred",
    suggestion := some "Please try again with a different query" }

/-! ### Existence matchers for the fresh (per-call) regexes -/

/-- Segment `[a, b)` of `s` contains no line terminator (what `.*` may span). -/
def dotGapOk (s : List Char) (a b : Nat) : Bool :=
  ((s.drop a).take (b - a)).all (fun c => !(isLineTerm c))

/-- `∃` a match of `/w1.*w2/i` in `s` (e.g. `/cara.*korupsi/gi.test(s)`). -/
def chain2 (w1 w2 : String) (s : List Char) : Bool :=
  (List.range (s.length + 1)).any fun i =>
    occursAtCI s w1.data i &&
      ((List.range (s.length + 1)).any fun j =>
        decide (i + w1.data.length ≤ j) && occursAtCI s w2.data j &&
          dotGapOk s (i + w1.data.length) j)

/-- `∃` a match of `/w1.*w2.*w3/i` in `s`. -/
def chain3 (w1 w2 w3 : String) (s : List Char) : Bool :=
  (List.range (s.length + 1)).any fun i =>
    occursAtCI s w1.data i &&
      ((List.range (s.length + 1)).any fun j =>
        decide (i + w1.data.length ≤ j) && occursAtCI s w2.data j &&
          dotGapOk s (i + w1.data.length) j &&
          ((List.range (s.length + 1)).any fun k =>
            decide (j + w2.data.length ≤ k) && occursAtCI s w3.data k &&
              dotGapOk s (j + w2.data.length) k))

/-- `∃` a match of `/kw\s+\w+/i` in `s` (absolute-statement patterns): an
occurrence of `kw` followed by at least one whitespace and then a word
character (`\w` never matches whitespace, so it must match the first
non-whitespace character after the run). -/
def absMatch (kw : String) (s : List Char) : Bool :=
  (List.range (s.length + 1)).any fun i =>
    occursAtCI s kw.data i &&
      (match s.drop (i + kw.data.length) with
       | [] => false
       | c :: rest =>
         isJsWs c &&
           (match rest.dropWhile isJsWs with
            | [] => false
            | d :: _ => isWordCh d))

/-- `unsafePatterns` of `checkUnsafeContent` (fresh regexes, boolean `test`):
`/cara.*korupsi/gi`, `/cara.*suap/gi`, `/cara.*menghindar.*hukum/gi`,
`/cara.*melanggar/gi`, `/tips.*menghindari.*sanksi/gi`. -/
def unsafeMatchers : List (List Char → Bool) :=
  [chain2 "cara" "korupsi", chain2 "cara" "suap",
   chain3 "cara" "menghindar" "hukum", chain2 "cara" "melanggar",
   chain3 "tips" "menghindari" "sanksi"]

/-- `inappropriatePatterns` of `checkUnsafeContent`:
`/pasti.*menang/gi`, `/dijamin.*bebas/gi`, `/tidak akan.*ketahuan/gi`. -/
def inappropriateMatchers : List (List Char → Bool) :=
  [chain2 "pasti" "menang", chain2 "dijamin" "bebas",
   chain2 "tidak akan" "ketahuan"]

/-- `absolutePatterns` keywords of `detectHallucinations`:
`/selalu\s+\w+/gi`, `/tidak pernah\s+\w+/gi`, `/semua\s+\w+/gi`,
`/tidak ada\s+\w+/gi`. -/
def absolutePatternKws : List String :=
  ["selalu", "tidak pernah", "semua", "tidak ada"]

/-- `∃` a match of `/\d+[\.\)]\s/` in `s` (a digit directly followed by `.`
or `)` and then whitespace witnesses a match, taking the last digit of the
run). -/
def stepDigitSep (s : List Char) : Bool :=
  (List.range s.length).any fun i =>
    match s.drop i with
    | a :: b :: c :: _ => isDigitCh a && (b = '.' || b = ')') && isJsWs c
    | _ => false

/-- `∃` a match of `/\bw\b/i` in `s` (word-boundary occurrence). -/
def wordBoundaryHit (w : String) (s : List Char) : Bool :=
  (List.range (s.length + 1)).any fun i =>
    occursAtCI s w.data i &&
      (decide (i = 0) ||
        (match (s.drop (i - 1)).head? with
         | some c => !(isWordCh c)
         | none => true)) &&
      (match (s.drop (i + w.data.length)).head? with
       | some c => !(isWordCh c)
       | none => true)

/-- The `hasSteps` regex of `validateCompleteness`:
`/\d+[\.\)]\s|\bpertama\b|\bkedua\b|\bketiga\b|\blangkah\b/gi` as a boolean
test on a fresh regex. -/
def hasStepsB (s : List Char) : Bool :=
  stepDigitSep s || wordBoundaryHit "pertama" s || wordBoundaryHit "kedua" s ||
    wordBoundaryHit "ketiga" s || wordBoundaryHit "langkah" s

/-! ### The seven checks -/

/-- `validateTopicRelevance(query, response)`: keyword-weighted relevance of
`query + " " + response` (lower-cased); `score = clamp(pos − 2·neg, 0, 10)`;
`score < 3` is CRITICAL, otherwise any negative keyword is MEDIUM. -/
def validateTopicRelevance (query response : String) : CheckResult :=
  let text := lowerChars (query.data ++ [' '] ++ response.data)
  let pos := positiveKeywords.countP fun kw => jsIncludes text (lowerChars kw.data)
  let neg := negativeKeywords.countP fun kw => jsIncludes text (lowerChars kw.data)
  let score : ℚ := max 0 (min 10 ((pos : ℚ) - 2 * (neg : ℚ)))
  let issues :=
    if score < 3 then [topicCriticalIssue]
    else if 0 < neg then [topicMediumIssue]
    else []
  { score := score, maxScore := 10, issues := issues, sources := [] }

/-- The texts extracted by the Citation Extractor: for each of the ten shared
patterns (with its current `lastIndex`), all `matchAll` matches, concatenated
in pattern order (`matchAll` clones the regex, so the shared state is read
but not written). -/
def citationMatchesChars (st : List Nat) (s : List Char) : List (List Char) :=
  (CITATION_PATTERNS.zip st).flatMap fun pli => jsMatchAll pli.1 s pli.2

/-- The extracted citations as strings (both the `sources` array and the
`foundCitations` texts of `validateSourceCitations`). -/
def citationMatches (st : List Nat) (r : String) : List String :=
  (citationMatchesChars st r.data).map (fun t => String.mk t)

/-- `determineCitationType` (case-sensitive `includes` checks, in order). -/
def determineCitationType (t : List Char) : CitationType :=
  if jsIncludes t ("UU".data) || jsIncludes t ("Undang-Undang".data) then .UU
  else if jsIncludes t ("Perppu".data) then .PERPPU
  else if jsIncludes t ("Perpres".data) then .PERPRES
  else if jsIncludes t ("KUHP".data) then .KUHP
  else if jsIncludes t ("KUHPerdata".data) then .KUHPERDATA
  else if jsIncludes t ("UUD".data) then .UUD
  else if jsIncludes t ("Putusan".data) then .PUTUSAN
  else .PERATURAN

/-- `isValidCitationFormat(citation)`:
`CITATION_PATTERNS.some(pattern => pattern.test(citation))` — short-circuits,
and each `test` on a global regex searches from that pattern's shared
`lastIndex`, then updates it (match end on success, 0 on failure). -/
def isValidCitationFormat (st : List Nat) (t : List Char) : Bool × List Nat :=
  someTest CITATION_PATTERNS st t

/-- The `foundCitations.forEach` format-revalidation loop: one
`isValidCitationFormat` call per extracted citation, threading the shared
`lastIndex` state, emitting a LOW issue per citation that fails. -/
def validateFormats : List (List Char) → List Nat → List ValidationIssue × List Nat
  | [], st => ([], st)
  | t :: ts, st =>
    let v := isValidCitationFormat st t
    let rest := validateFormats ts v.2
    ((if v.1 then [] else [formatLowIssue t]) ++ rest.1, rest.2)

/-- `validateSourceCitations(response)`: extraction, count-based score
(`expected = max(1, ⌊len/200⌋)`, `score = min(10, 10·count/expected)`, forced
to 0 with a CRITICAL issue when `count = 0`), then format re-validation. -/
def validateSourceCitations (st : List Nat) (response : String) :
    CheckResult × List Nat :=
  let s := response.data
  let found := citationMatchesChars st s
  let citationCount := found.length
  let expected := max 1 (s.length / 200)
  let score0 : ℚ := min 10 ((citationCount : ℚ) / (expected : ℚ) * 10)
  let countIssues :=
    if citationCount = 0 then [missingSourceCriticalIssue]
    else if citationCount < expected then [missingSourceMediumIssue]
    else []
  let score : ℚ := if citationCount = 0 then 0 else score0
  ({ score := score, maxScore := 10,
     issues := countIssues ++ (validateFormats found st).1,
     sources := found.map (fun t => String.mk t) },
   (validateFormats found st).2)

/-- `detectHallucinations(response)`: starts at 10; −3 per misconception key
whose first underscore is replaced by a space (JS `replace('_', ' ')`
replaces only the first) found in the lower-cased response; −2 per
knowledge-base key contained (case-sensitively) in the response whose
canonical text has Dice similarity < 0.3 with the response; −1 per
absolute-statement pattern that matches; floored at 0. -/
def detectHallucinations (response : String) : CheckResult :=
  let rl := lowerChars response.data
  let miscHits := commonMisconceptions.filter fun kv =>
    jsIncludes rl (replaceFirstUnderscore kv.1.data)
  let kbHits := knowledgeEntries.filter fun kv =>
    jsIncludes response.data kv.1.data &&
      decide (compareTwoStrings rl (lowerChars kv.2.data) < 3 / 10)
  let absHits := absolutePatternKws.countP fun kw => absMatch kw response.data
  let score : ℚ :=
    max 0 (10 - 3 * (miscHits.length : ℚ) - 2 * (kbHits.length : ℚ) - (absHits : ℚ))
  { score := score, maxScore := 10,
    issues := miscHits.map (fun kv => misconceptionIssue kv.2) ++
      kbHits.map (fun kv => kbDivergenceIssue kv.1) ++
      List.replicate absHits absoluteStatementIssue,
    sources := [] }

/-- `contradictoryPairs` of `checkLogicalConsistency`. -/
def contradictoryPairs : List (String × String) :=
  [("dilarang", "diperbolehkan"), ("wajib", "tidak wajib"),
   ("harus", "tidak harus"), ("boleh", "tidak boleh"), ("legal", "ilegal")]

/-- `findWordDistance(text, w1, w2)`: |indexOf w1 − indexOf w2|, `none` for
the `Infinity` returned when either word is absent. -/
def findWordDistance (text w1 w2 : List Char) : Option Nat :=
  match jsIndexOf text w1, jsIndexOf text w2 with
  | some i, some j => some (max i j - min i j)
  | _, _ => none

/-- `distance < k` for a possibly-infinite distance. -/
def distLt (d : Option Nat) (k : Nat) : Bool :=
  match d with
  | some n => decide (n < k)
  | none => false

/-- `response.split(/[.!?]+/).filter(s => s.trim().length > minLen)`. -/
def sentencesOf (r : List Char) (minLen : Nat) : List (List Char) :=
  (splitRuns (fun c => c = '.' || c = '!' || c = '?') r).filter
    fun s => decide (minLen < (trimChars s).length)

/-- Number of adjacent sentence pairs with Dice similarity > 0.2
(the `flowScore` loop). -/
def adjFlowCount : List (List Char) → Nat
  | a :: b :: rest =>
    (if (1 : ℚ) / 5 < compareTwoStrings (lowerChars a) (lowerChars b) then 1 else 0) +
      adjFlowCount (b :: rest)
  | _ => 0

/-- Whether a contradictory pair fires: both members occur in the lower-cased
response and their first occurrences are < 50 characters apart. -/
def pairTriggers (rl : List Char) (pq : String × String) : Bool :=
  jsIncludes rl pq.1.data && jsIncludes rl pq.2.data &&
    distLt (findWordDistance rl pq.1.data pq.2.data) 50

/-- `checkLogicalConsistency(response)`: −3 per firing contradictory pair;
for ≥ 3 sentences, −1 when fewer than 30 % of adjacent pairs have similarity
> 0.2; floored at 0. -/
def checkLogicalConsistency (response : String) : CheckResult :=
  let rl := lowerChars response.data
  let hitPairs := contradictoryPairs.filter (pairTriggers rl)
  let sents := sentencesOf response.data 10
  let flowBad :=
    decide (3 ≤ sents.length) &&
      decide ((adjFlowCount sents : ℚ) < ((sents.length - 1 : Nat) : ℚ) * (3 / 10))
  let score : ℚ :=
    max 0 (10 - 3 * (hitPairs.length : ℚ) - (if flowBad then 1 else 0))
  { score := score, maxScore := 10,
    issues := hitPairs.map (fun pq => pairIssue pq.1 pq.2) ++
      (if flowBad then [flowIssue] else []),
    sources := [] }

/-- `validateCompleteness(query, response)`: −3 for a procedural query
(`cara`/`prosedur`) without step evidence; −2 when `query.length > 50` and
`response.length < 100`; −1 for a definition query (`apa itu`/`definisi`)
without a definitional marker; floored at 0. -/
def validateCompleteness (query response : String) : CheckResult :=
  let ql := lowerChars query.data
  let rl := lowerChars response.data
  let noSteps :=
    (jsIncludes ql ("cara".data) || jsIncludes ql ("prosedur".data)) &&
      !(hasStepsB response.data)
  let brief := decide (50 < query.data.length) && decide (response.data.length < 100)
  let noDefinition :=
    (jsIncludes ql ("apa itu".data) || jsIncludes ql ("definisi".data)) &&
      !(jsIncludes rl ("adalah".data) || jsIncludes rl ("yaitu".data) ||
        jsIncludes rl ("merupakan".data))
  let score : ℚ :=
    max 0 (10 - (if noSteps then 3 else 0) - (if brief then 2 else 0) -
      (if noDefinition then 1 else 0))
  { score := score, maxScore := 10,
    issues := (if noSteps then [stepsIssue] else []) ++
      (if brief then [briefIssue] else []) ++
      (if noDefinition then [definitionIssue] else []),
    sources := [] }

/-- Whether any high-severity unsafe pattern matches the response. -/
def unsafeHit (response : String) : Bool :=
  unsafeMatchers.any fun m => m response.data

/-- `checkUnsafeContent(response)`: each unsafe-pattern match pushes a
CRITICAL issue and assigns `score = 0` (so after that loop the score is 0
iff any matched, else 10); each inappropriate-pattern match pushes a HIGH
issue and deducts 4; floored at 0. -/
def checkUnsafeContent (response : String) : CheckResult :=
  let s := response.data
  let uCount := unsafeMatchers.countP fun m => m s
  let iCount := inappropriateMatchers.countP fun m => m s
  let score : ℚ :=
    max 0 ((if unsafeHit response then 0 else 10) - 4 * (iCount : ℚ))
  { score := score, maxScore := 10,
    issues := List.replicate uCount unsafeCriticalIssue ++
      List.replicate iCount unsafeHighIssue,
    sources := [] }

/-- Number of unordered sentence pairs with Dice similarity > 0.8
(the nested repetition loops). -/
def repPairs : List (List Char) → Nat
  | [] => 0
  | a :: rest =>
    rest.countP (fun b =>
      decide ((4 : ℚ) / 5 < compareTwoStrings (lowerChars a) (lowerChars b))) +
      repPairs rest

/-- `assessFormalLanguage(text)`:
`min(10, 100 · formalCount / wordCount)` over `text.toLowerCase().split(/\s+/)`
(the split of any string is nonempty, so the division is well-defined). -/
def assessFormalLanguage (t : List Char) : ℚ :=
  let words := splitRuns isJsWs (lowerChars t)
  let formalCount := words.countP fun w => formalWords.any fun f => jsIncludes w f.data
  min 10 ((formalCount : ℚ) / (words.length : ℚ) * 100)

/-- `assessQuality(response)`: −3 when shorter than 50 chars; −2 when more
than one repetitive sentence pair; −1 when the formality score is below 5;
floored at 0. -/
def assessQuality (response : String) : CheckResult :=
  let tooShort := decide (response.data.length < 50)
  let sents := sentencesOf response.data 5
  let repetitive := decide (1 < repPairs sents)
  let informal := decide (assessFormalLanguage response.data < 5)
  let score : ℚ :=
    max 0 (10 - (if tooShort then 3 else 0) - (if repetitive then 2 else 0) -
      (if informal then 1 else 0))
  { score := score, maxScore := 10,
    issues := (if tooShort then [tooShortIssue] else []) ++
      (if repetitive then [repetitiveIssue] else []) ++
      (if informal then [informalIssue] else []),
    sources := [] }

/-! ### The orchestrator (`validateResponse`) -/

/-- The seven checks in definition order (only the Source Citation check
reads/writes the shared regex state), plus the state after the run. -/
def runChecks (st : List Nat) (query response : String) :
    List CheckResult × List Nat :=
  ([validateTopicRelevance query response,
    (validateSourceCitations st response).1,
    detectHallucinations response,
    checkLogicalConsistency response,
    validateCompleteness query response,
    checkUnsafeContent response,
    assessQuality response],
   (validateSourceCitations st response).2)

/-- `result.issues` after the aggregation loop (check-definition order). -/
def aggIssues (cs : List CheckResult) : List ValidationIssue :=
  cs.flatMap (fun c => c.issues)

/-- `result.sources` before deduplication. -/
def aggSources (cs : List CheckResult) : List String :=
  cs.flatMap (fun c => c.sources)

/-- `totalScore` accumulated over the checks. -/
def totalScore (cs : List CheckResult) : ℚ := (cs.map (fun c => c.score)).sum

/-- `maxScore` accumulated over the checks. -/
def totalMaxScore (cs : List CheckResult) : ℚ := (cs.map (fun c => c.maxScore)).sum

/-- `generateSuggestions(issues)`: the issues' own suggestions (first-seen
dedup via a `Set`), plus one generic suggestion per issue *type* present. -/
def generateSuggestions (issues : List ValidationIssue) : List String :=
  let base := dedupKeep (issues.filterMap (fun i => i.suggestion))
  let s1 :=
    if issues.any (fun i => decide (i.type = IssueType.MISSING_SOURCE)) then
      addUnique base "Include specific references to Indonesian laws with article numbers"
    else base
  let s2 :=
    if issues.any (fun i => decide (i.type = IssueType.TOPIC_IRRELEVANT)) then
      addUnique s1 "Focus strictly on Indonesian legal topics and regulations"
    else s1
  if issues.any (fun i => decide (i.type = IssueType.INCOMPLETE)) then
    addUnique s2 "Provide more comprehensive coverage of the legal topic"
  else s2

/-- `validateResponse(userQuery, aiResponse)` (normal completion path):
fan-out to the seven checks, aggregation in definition order,
`confidence = 100·totalScore/maxScore` (`maxScore > 0` guard), the
`confidence ≥ 70 ∧ no CRITICAL` validity rule, source deduplication, and
suggestions only when invalid.  The unused `maxRetries` parameter of the
source is omitted.  Returns the result together with the shared regex state
left for the next call. -/
def validateResponse (st : List Nat) (userQuery aiResponse : String) :
    ValidationResult × List Nat :=
  let cs := (runChecks st userQuery aiResponse).1
  let issues := aggIssues cs
  let confidence : ℚ :=
    if 0 < totalMaxScore cs then totalScore cs / totalMaxScore cs * 100 else 0
  let valid :=
    decide (70 ≤ confidence) &&
      !(issues.any fun i => decide (i.severity = Severity.CRITICAL))
  ({ isValid := valid, validatedText := aiResponse, confidence := confidence,
     issues := issues, sources := dedupKeep (aggSources cs),
     suggestions := if valid then none else some (generateSuggestions issues) },
   (runChecks st userQuery aiResponse).2)

/-- The fixed fallback result returned by `validateResponse`'s `catch` block:
the whole `try` body is wrapped, so any internal error yields exactly this
value (fail-closed). -/
def validationErrorFallback (aiResponse : String) : ValidationResult :=
  { isValid := false, validatedText := aiResponse, confidence := 0,
    issues := [systemErrorIssue], sources := [], suggestions := none }

/-! Batteries marks the `Rat` arithmetic operations `@[irreducible]`, which
blocks `decide`'s evaluation of closed rational facts; restore the default
reducibility so concrete runs of the validator evaluate. -/
attribute [local semireducible] Rat.mul Rat.inv Rat.add Rat.sub

set_option maxRecDepth 100000

/-! ### Helper lemmas: aggregation and score bounds -/

/-- No aggregated issue satisfies `p` iff no check emitted one. -/
lemma not_any_aggIssues (cs : List CheckResult) (p : ValidationIssue → Bool) :
    (!((aggIssues cs).any p)) = cs.all fun c => c.issues.all fun i => !(p i) := by
  simp [aggIssues, List.any_flatMap, List.not_any_eq_all_not]

/-- The `isValid` field is literally the source's validity formula. -/
lemma validateResponse_isValid (st : List Nat) (q r : String) :
    (validateResponse st q r).1.isValid =
      (decide (70 ≤ (validateResponse st q r).1.confidence) &&
        !((validateResponse st q r).1.issues.any fun i =>
          decide (i.severity = Severity.CRITICAL))) := rfl

/-- The `issues` field is the concatenation of the checks' issues. -/
lemma validateResponse_issues (st : List Nat) (q r : String) :
    (validateResponse st q r).1.issues = aggIssues (runChecks st q r).1 := rfl

/-- The `confidence` field as the source computes it. -/
lemma validateResponse_confidence (st : List Nat) (q r : String) :
    (validateResponse st q r).1.confidence =
      (if 0 < totalMaxScore (runChecks st q r).1 then
        totalScore (runChecks st q r).1 / totalMaxScore (runChecks st q r).1 * 100
      else 0) := rfl

/-- The `sources` field is the deduplicated concatenation. -/
lemma validateResponse_sources (st : List Nat) (q r : String) :
    (validateResponse st q r).1.sources =
      dedupKeep (aggSources (runChecks st q r).1) := rfl

/-- Bounds for a `clamp(·, 0, 10)`-shaped score. -/
lemma clampScore_bounds (x : ℚ) : 0 ≤ max 0 (min 10 x) ∧ max 0 (min 10 x) ≤ 10 :=
  ⟨le_max_left _ _, max_le (by norm_num) (min_le_left _ _)⟩

/-- Bounds for a floored score with one deduction. -/
lemma dedScore1_bounds (base a : ℚ) (hbase : base ≤ 10) (ha : 0 ≤ a) :
    0 ≤ max 0 (base - a) ∧ max 0 (base - a) ≤ 10 :=
  ⟨le_max_left _ _, max_le (by norm_num) (by linarith)⟩

/-- Bounds for a floored score with two deductions. -/
lemma dedScore2_bounds (base a b : ℚ) (hbase : base ≤ 10) (ha : 0 ≤ a) (hb : 0 ≤ b) :
    0 ≤ max 0 (base - a - b) ∧ max 0 (base - a - b) ≤ 10 :=
  ⟨le_max_left _ _, max_le (by norm_num) (by linarith)⟩

/-- Bounds for a floored score with three deductions. -/
lemma dedScore3_bounds (base a b c : ℚ) (hbase : base ≤ 10) (ha : 0 ≤ a)
    (hb : 0 ≤ b) (hc : 0 ≤ c) :
    0 ≤ max 0 (base - a - b - c) ∧ max 0 (base - a - b - c) ≤ 10 :=
  ⟨le_max_left _ _, max_le (by norm_num) (by linarith)⟩

/-- An `if _ then k else 0` deduction is nonnegative. -/
lemma iteDed_nonneg (b : Bool) (k : ℚ) (hk : 0 ≤ k) :
    0 ≤ (if b = true then k else 0) := by
  split <;> simp [hk]

/-- The Topic Relevance score is in `[0, 10]`. -/
lemma topic_score_bounds (q r : String) :
    0 ≤ (validateTopicRelevance q r).score ∧ (validateTopicRelevance q r).score ≤ 10 :=
  clampScore_bounds _

/-- The Source Citation score is in `[0, 10]`. -/
lemma cit_score_bounds (st : List Nat) (r : String) :
    0 ≤ (validateSourceCitations st r).1.score ∧
      (validateSourceCitations st r).1.score ≤ 10 := by
  show 0 ≤ (if _ = 0 then (0:ℚ) else min 10 _) ∧ (if _ = 0 then (0:ℚ) else min 10 _) ≤ 10
  split
  · norm_num
  · exact ⟨le_min (by norm_num) (by positivity), min_le_left _ _⟩

/-- The Hallucination score is in `[0, 10]`. -/
lemma halluc_score_bounds (r : String) :
    0 ≤ (detectHallucinations r).score ∧ (detectHallucinations r).score ≤ 10 :=
  dedScore3_bounds _ _ _ _ (by norm_num) (by positivity) (by positivity) (by positivity)

/-- The Logical Consistency score is in `[0, 10]`. -/
lemma consistency_score_bounds (r : String) :
    0 ≤ (checkLogicalConsistency r).score ∧ (checkLogicalConsistency r).score ≤ 10 :=
  dedScore2_bounds _ _ _ (by norm_num) (by positivity)
    (iteDed_nonneg _ _ (by norm_num))

/-- The Completeness score is in `[0, 10]`. -/
lemma completeness_score_bounds (q r : String) :
    0 ≤ (validateCompleteness q r).score ∧ (validateCompleteness q r).score ≤ 10 :=
  dedScore3_bounds _ _ _ _ (by norm_num) (iteDed_nonneg _ _ (by norm_num))
    (iteDed_nonneg _ _ (by norm_num)) (iteDed_nonneg _ _ (by norm_num))

/-- The Unsafe-Content score is in `[0, 10]`. -/
lemma unsafe_score_bounds (r : String) :
    0 ≤ (checkUnsafeContent r).score ∧ (checkUnsafeContent r).score ≤ 10 :=
  dedScore1_bounds _ _ (by split <;> norm_num) (by positivity)

/-- The Quality score is in `[0, 10]`. -/
lemma quality_score_bounds (r : String) :
    0 ≤ (assessQuality r).score ∧ (assessQuality r).score ≤ 10 :=
  dedScore3_bounds _ _ _ _ (by norm_num) (iteDed_nonneg _ _ (by norm_num))
    (iteDed_nonneg _ _ (by norm_num)) (iteDed_nonneg _ _ (by norm_num))

/-- Every check reports `maxScore = 10`, so the total is 70. -/
lemma totalMaxScore_runChecks (st : List Nat) (q r : String) :
    totalMaxScore (runChecks st q r).1 = 70 := by
  show ((10:ℚ) + (10 + (10 + (10 + (10 + (10 + (10 + 0))))))) = 70
  norm_num

/-- The total score over the seven checks lies in `[0, 70]`. -/
lemma totalScore_bounds (st : List Nat) (q r : String) :
    0 ≤ totalScore (runChecks st q r).1 ∧ totalScore (runChecks st q r).1 ≤ 70 := by
  have h1 := topic_score_bounds q r
  have h2 := cit_score_bounds st r
  have h3 := halluc_score_bounds r
  have h4 := consistency_score_bounds r
  have h5 := completeness_score_bounds q r
  have h6 := unsafe_score_bounds r
  have h7 := quality_score_bounds r
  have he : totalScore (runChecks st q r).1 =
      (validateTopicRelevance q r).score + ((validateSourceCitations st r).1.score +
        ((detectHallucinations r).score + ((checkLogicalConsistency r).score +
          ((validateCompleteness q r).score + ((checkUnsafeContent r).score +
            ((assessQuality r).score + 0)))))) := rfl
  rw [he]
  constructor <;> linarith [h1.1, h1.2, h2.1, h2.2, h3.1, h3.2, h4.1, h4.2,
    h5.1, h5.2, h6.1, h6.2, h7.1, h7.2]

/-! ### Claim theorems -/

/-- C1: for every `(query, response)` pair (and any shared regex state), the
returned result has `isValid = true` exactly when `confidence ≥ 70` and no
element of `issues` has severity CRITICAL; equivalently — since `issues` is
the concatenation of the seven checks' issues — exactly when `confidence ≥ 70`
and no check emitted a CRITICAL issue, so a single CRITICAL issue from any
check vetoes validity regardless of every other check's score. -/
theorem c1_isValid_rule (st : List Nat) (q r : String) :
    (validateResponse st q r).1.isValid =
      (decide (70 ≤ (validateResponse st q r).1.confidence) &&
        !((validateResponse st q r).1.issues.any fun i =>
          decide (i.severity = Severity.CRITICAL))) ∧
    (validateResponse st q r).1.isValid =
      (decide (70 ≤ (validateResponse st q r).1.confidence) &&
        (runChecks st q r).1.all fun c => c.issues.all fun i =>
          !(decide (i.severity = Severity.CRITICAL))) := by
  refine ⟨rfl, ?_⟩
  rw [validateResponse_isValid, validateResponse_issues, not_any_aggIssues]

/-- C2: the confidence equals `100 · Σ score / Σ maxScore` over the seven
checks, clamped to `[0, 100]` (the clamp is vacuous because each check's
score lies in `[0, 10]` against `maxScore = 10`); in particular
`0 ≤ confidence ≤ 100` always. -/
theorem c2_confidence_formula (st : List Nat) (q r : String) :
    (validateResponse st q r).1.confidence =
      max 0 (min 100 (100 * totalScore (runChecks st q r).1 /
        totalMaxScore (runChecks st q r).1)) ∧
    0 ≤ (validateResponse st q r).1.confidence ∧
    (validateResponse st q r).1.confidence ≤ 100 ∧
    ((runChecks st q r).1.all fun c =>
      decide (0 ≤ c.score) && decide (c.score ≤ 10) && decide (c.maxScore = 10)) = true := by
  have hb := totalScore_bounds st q r
  have hconf : (validateResponse st q r).1.confidence =
      totalScore (runChecks st q r).1 / 70 * 100 := by
    rw [validateResponse_confidence, totalMaxScore_runChecks]
    norm_num
  have h0 : 0 ≤ totalScore (runChecks st q r).1 / 70 * 100 :=
    mul_nonneg (div_nonneg hb.1 (by norm_num)) (by norm_num)
  have h100 : totalScore (runChecks st q r).1 / 70 * 100 ≤ 100 := by
    have : totalScore (runChecks st q r).1 / 70 * 100 ≤ 70 / 70 * 100 := by
      gcongr
      exact hb.2
    linarith [this]
  refine ⟨?_, ?_, ?_, ?_⟩
  · rw [hconf, totalMaxScore_runChecks]
    have hring : 100 * totalScore (runChecks st q r).1 / 70 =
        totalScore (runChecks st q r).1 / 70 * 100 := by ring
    rw [hring, min_eq_right h100, max_eq_right h0]
  · rw [hconf]; exact h0
  · rw [hconf]; exact h100
  · rw [List.all_eq_true]
    intro c hc
    have hmem : c = validateTopicRelevance q r ∨ c = (validateSourceCitations st r).1 ∨
        c = detectHallucinations r ∨ c = checkLogicalConsistency r ∨
        c = validateCompleteness q r ∨ c = checkUnsafeContent r ∨
        c = assessQuality r := by
      simpa [runChecks] using hc
    have hmax : ∀ d : CheckResult, d.maxScore = 10 →
        0 ≤ d.score → d.score ≤ 10 →
        (decide (0 ≤ d.score) && decide (d.score ≤ 10) && decide (d.maxScore = 10)) = true := by
      intro d h1 h2 h3
      simp [h1, h2, h3]
    rcases hmem with rfl | rfl | rfl | rfl | rfl | rfl | rfl
    · exact hmax _ rfl (topic_score_bounds q r).1 (topic_score_bounds q r).2
    · exact hmax _ rfl (cit_score_bounds st r).1 (cit_score_bounds st r).2
    · exact hmax _ rfl (halluc_score_bounds r).1 (halluc_score_bounds r).2
    · exact hmax _ rfl (consistency_score_bounds r).1 (consistency_score_bounds r).2
    · exact hmax _ rfl (completeness_score_bounds q r).1 (completeness_score_bounds q r).2
    · exact hmax _ rfl (unsafe_score_bounds r).1 (unsafe_score_bounds r).2
    · exact hmax _ rfl (quality_score_bounds r).1 (quality_score_bounds r).2

/-- A CRITICAL issue anywhere in the aggregated issues forces
`isValid = false`. -/
lemma isValid_false_of_critical (st : List Nat) (q r : String)
    (i : ValidationIssue) (hmem : i ∈ (validateResponse st q r).1.issues)
    (hc : i.severity = Severity.CRITICAL) :
    (validateResponse st q r).1.isValid = false := by
  rw [validateResponse_isValid]
  have hany : ((validateResponse st q r).1.issues.any fun i =>
      decide (i.severity = Severity.CRITICAL)) = true :=
    List.any_eq_true.mpr ⟨i, hmem, by simp [hc]⟩
  simp [hany]

/-- An issue of any check is in the aggregated issue list. -/
lemma mem_issues_of_mem_check (st : List Nat) (q r : String)
    (c : CheckResult) (hc : c ∈ (runChecks st q r).1)
    (i : ValidationIssue) (hi : i ∈ c.issues) :
    i ∈ (validateResponse st q r).1.issues := by
  rw [validateResponse_issues]
  exact List.mem_flatMap.mpr ⟨c, hc, hi⟩

/-- C3: if any high-severity unsafe pattern matches the response, the
Unsafe-Content check's score is exactly 0 — even when inappropriate-guarantee
patterns also deduct in the same run, because the deductions apply to the
already-zero score and the floor keeps it at 0 — a CRITICAL `UNSAFE_CONTENT`
issue is emitted, and the overall result is invalid. -/
theorem c3_unsafe_veto (st : List Nat) (q r : String) (h : unsafeHit r = true) :
    (checkUnsafeContent r).score = 0 ∧
    unsafeCriticalIssue ∈ (checkUnsafeContent r).issues ∧
    (validateResponse st q r).1.isValid = false := by
  have hscore : (checkUnsafeContent r).score = 0 := by
    show max 0 ((if unsafeHit r = true then (0:ℚ) else 10) -
      4 * ((inappropriateMatchers.countP fun m => m r.data : Nat) : ℚ)) = 0
    rw [if_pos h]
    exact max_eq_left (by
      have : (0:ℚ) ≤ 4 * ((inappropriateMatchers.countP fun m => m r.data : Nat) : ℚ) := by
        positivity
      linarith)
  have h' : (unsafeMatchers.any fun m => m r.data) = true := h
  have hcount : 0 < unsafeMatchers.countP fun m => m r.data :=
    List.countP_pos_iff.mpr (List.any_eq_true.mp h')
  have hne : (unsafeMatchers.countP fun m => m r.data) ≠ 0 :=
    Nat.pos_iff_ne_zero.mp hcount
  have hmem : unsafeCriticalIssue ∈ (checkUnsafeContent r).issues := by
    show unsafeCriticalIssue ∈
      List.replicate (unsafeMatchers.countP fun m => m r.data) unsafeCriticalIssue ++
        List.replicate (inappropriateMatchers.countP fun m => m r.data) unsafeHighIssue
    exact List.mem_append_left _ (List.mem_replicate.mpr ⟨hne, rfl⟩)
  refine ⟨hscore, hmem, ?_⟩
  refine isValid_false_of_critical st q r unsafeCriticalIssue ?_ rfl
  exact mem_issues_of_mem_check st q r (checkUnsafeContent r) (by simp [runChecks])
    unsafeCriticalIssue hmem

/-- Witness for C3 at a concrete response matching both the
`/cara.*korupsi/` unsafe pattern and the `/pasti.*menang/` guarantee
pattern. -/
theorem c3_unsafe_veto_witness :
    unsafeHit "cara melakukan korupsi dan pasti menang" = true ∧
    ((checkUnsafeContent "cara melakukan korupsi dan pasti menang").score = 0 ∧
      unsafeCriticalIssue ∈
        (checkUnsafeContent "cara melakukan korupsi dan pasti menang").issues ∧
      (validateResponse initCitState "hukum"
        "cara melakukan korupsi dan pasti menang").1.isValid = false) :=
  ⟨by decide, c3_unsafe_veto initCitState "hukum" _ (by decide)⟩

/-- The non-citation checks contribute no sources. -/
lemma topic_sources (q r : String) : (validateTopicRelevance q r).sources = [] := rfl

/-- `detectHallucinations` contributes no sources. -/
lemma halluc_sources (r : String) : (detectHallucinations r).sources = [] := rfl

/-- `checkLogicalConsistency` contributes no sources. -/
lemma consistency_sources (r : String) : (checkLogicalConsistency r).sources = [] := rfl

/-- `validateCompleteness` contributes no sources. -/
lemma completeness_sources (q r : String) : (validateCompleteness q r).sources = [] := rfl

/-- `checkUnsafeContent` contributes no sources. -/
lemma unsafe_sources (r : String) : (checkUnsafeContent r).sources = [] := rfl

/-- `assessQuality` contributes no sources. -/
lemma quality_sources (r : String) : (assessQuality r).sources = [] := rfl

/-- The Source Citation check's sources are exactly the extracted
citations. -/
lemma cit_sources (st : List Nat) (r : String) :
    (validateSourceCitations st r).1.sources = citationMatches st r := rfl

/-- C4: whenever the Citation Extractor finds zero citations in the response
— whatever the response's length — the Source Citation check returns score 0
and emits a CRITICAL `MISSING_SOURCE` issue, and the final result's `sources`
list is empty (no other check ever contributes sources). -/
theorem c4_zero_citations (st : List Nat) (q r : String)
    (h : citationMatches st r = []) :
    (validateSourceCitations st r).1.score = 0 ∧
    missingSourceCriticalIssue ∈ (validateSourceCitations st r).1.issues ∧
    (validateResponse st q r).1.sources = [] := by
  have hnil : citationMatchesChars st r.data = [] :=
    List.map_eq_nil_iff.mp h
  refine ⟨?_, ?_, ?_⟩
  · show (if (citationMatchesChars st r.data).length = 0 then (0:ℚ) else _) = 0
    rw [hnil]
    rfl
  · show missingSourceCriticalIssue ∈
      (if (citationMatchesChars st r.data).length = 0 then [missingSourceCriticalIssue]
        else if (citationMatchesChars st r.data).length < max 1 (r.data.length / 200) then
          [missingSourceMediumIssue] else []) ++
        (validateFormats (citationMatchesChars st r.data) st).1
    rw [hnil]
    exact List.mem_append_left _ (by simp)
  · rw [validateResponse_sources]
    have hagg : aggSources (runChecks st q r).1 = [] := by
      show (validateTopicRelevance q r).sources ++
        ((validateSourceCitations st r).1.sources ++ ((detectHallucinations r).sources ++
          ((checkLogicalConsistency r).sources ++ ((validateCompleteness q r).sources ++
            ((checkUnsafeContent r).sources ++ ((assessQuality r).sources ++ [])))))) = []
      rw [topic_sources, cit_sources, halluc_sources, consistency_sources,
        completeness_sources, unsafe_sources, quality_sources, h]
      rfl
    rw [hagg]
    rfl

/-- Witness for C4 at a citation-free response. -/
theorem c4_zero_citations_witness :
    citationMatches initCitState "Hukum perdata mengatur perjanjian antara para pihak" = [] ∧
    ((validateSourceCitations initCitState
        "Hukum perdata mengatur perjanjian antara para pihak").1.score = 0 ∧
      missingSourceCriticalIssue ∈ (validateSourceCitations initCitState
        "Hukum perdata mengatur perjanjian antara para pihak").1.issues ∧
      (validateResponse initCitState "hukum"
        "Hukum perdata mengatur perjanjian antara para pihak").1.sources = []) :=
  ⟨by decide, c4_zero_citations initCitState "hukum" _ (by decide)⟩

/-! ### Substring lemmas (for `includes` / `indexOf` reasoning) -/

/-- The empty string occurs everywhere. -/
lemma occursAt_nil (h : List Char) (i : Nat) : occursAt h [] i = true := by
  simp [occursAt]

/-- `includes` is the existence of an occurrence. -/
lemma jsIncludes_iff (h n : List Char) :
    jsIncludes h n = true ↔ ∃ i, occursAt h n i = true := by
  have hunfold : jsIncludes h n =
      ((List.range (h.length + 1)).find? (fun i => occursAt h n i)).isSome := rfl
  rw [hunfold]
  constructor
  · intro hh
    obtain ⟨i, _, hp⟩ := List.find?_isSome.mp hh
    exact ⟨i, hp⟩
  · rintro ⟨i, hi⟩
    by_cases hle : i ≤ h.length
    · exact List.find?_isSome.mpr ⟨i, List.mem_range.mpr (by omega), hi⟩
    · have hdrop : h.drop i = [] := List.drop_eq_nil_of_le (by omega)
      have hn : n = [] := by
        have h' := hi
        simp [occursAt, hdrop] at h'
        exact h'
      subst hn
      exact List.find?_isSome.mpr
        ⟨0, List.mem_range.mpr (by omega), occursAt_nil h 0⟩

/-- An occurrence inside an occurrence is an occurrence. -/
lemma occursAt_trans {h a b : List Char} {i j : Nat}
    (hha : occursAt h a i = true) (hab : occursAt a b j = true) :
    occursAt h b (i + j) = true := by
  rcases hb : b with _ | ⟨c, cs⟩
  · exact occursAt_nil h _
  · subst hb
    have hta : (h.drop i).take a.length = a := by
      simpa [occursAt] using hha
    have htb : (a.drop j).take (c :: cs).length = c :: cs := by
      simpa [occursAt] using hab
    have hjb : j < a.length := by
      by_contra hcon
      push_neg at hcon
      have hnil : a.drop j = [] := List.drop_eq_nil_of_le hcon
      rw [hnil] at htb
      simp at htb
    have hblen : (c :: cs).length ≤ (a.drop j).length := by
      have h2 := congrArg List.length htb
      rw [List.length_take] at h2
      omega
    have hsplit : h.drop i = a ++ (h.drop i).drop a.length := by
      conv_lhs => rw [← List.take_append_drop a.length (h.drop i)]
      rw [hta]
    show decide ((h.drop (i + j)).take (c :: cs).length = c :: cs) = true
    rw [decide_eq_true_eq]
    have hdd : h.drop (i + j) = (h.drop i).drop j := by
      rw [List.drop_drop]
    rw [hdd, hsplit, List.drop_append_of_le_length (by omega),
      List.take_append_of_le_length hblen, htb]

/-- If `a` occurs in `h` and `b` occurs inside `a`, then `b` occurs in
`h` (used for the containment of contradiction-pair members). -/
lemma jsIncludes_within (h a b : List Char) (j : Nat)
    (hia : jsIncludes h a = true) (hab : occursAt a b j = true) :
    jsIncludes h b = true := by
  obtain ⟨i, hi⟩ := (jsIncludes_iff h a).mp hia
  exact (jsIncludes_iff h b).mpr ⟨i + j, occursAt_trans hi hab⟩

/-- C10: because "tidak wajib" textually contains "wajib", any response whose
lower-cased text contains "tidak wajib" with the first occurrences of "wajib"
and "tidak wajib" less than 50 characters apart (in particular, any response
whose first "wajib" is the one inside "tidak wajib", at distance 6) makes the
Logical Consistency check emit a HIGH `INCONSISTENCY` issue for the pair
("wajib", "tidak wajib") and deduct 3 (score at most 7), even though such a
response states no actual contradiction. -/
theorem c10_contained_pair_fires (r : String)
    (h1 : jsIncludes (lowerChars r.data) ("tidak wajib".data) = true)
    (h2 : distLt (findWordDistance (lowerChars r.data) ("wajib".data)
      ("tidak wajib".data)) 50 = true) :
    pairIssue "wajib" "tidak wajib" ∈ (checkLogicalConsistency r).issues ∧
    (checkLogicalConsistency r).score ≤ 7 := by
  have hw : jsIncludes (lowerChars r.data) ("wajib".data) = true :=
    jsIncludes_within _ ("tidak wajib".data) _ 6 h1 (by decide)
  have htrig : pairTriggers (lowerChars r.data) ("wajib", "tidak wajib") = true := by
    simp only [pairTriggers]
    rw [hw, h1, h2]
    rfl
  have hpmem : ("wajib", "tidak wajib") ∈
      contradictoryPairs.filter (pairTriggers (lowerChars r.data)) :=
    List.mem_filter.mpr ⟨by decide, htrig⟩
  have hlen : 0 < (contradictoryPairs.filter (pairTriggers (lowerChars r.data))).length :=
    List.length_pos_of_mem hpmem
  constructor
  · exact List.mem_append_left _ (List.mem_map.mpr ⟨_, hpmem, rfl⟩)
  · have hcast : (1 : ℚ) ≤
        ((contradictoryPairs.filter (pairTriggers (lowerChars r.data))).length : ℚ) := by
      exact_mod_cast hlen
    apply max_le (by norm_num : (0:ℚ) ≤ 7)
    have hite := iteDed_nonneg
      (decide (3 ≤ (sentencesOf r.data 10).length) &&
        decide ((adjFlowCount (sentencesOf r.data 10) : ℚ) <
          (((sentencesOf r.data 10).length - 1 : Nat) : ℚ) * (3 / 10))) (1:ℚ) (by norm_num)
    linarith

/-- Witness for C10 at a response containing "tidak wajib" and no earlier
standalone "wajib". -/
theorem c10_contained_pair_fires_witness :
    jsIncludes (lowerChars ("Lapor itu tidak wajib bagi warga.".data))
      ("tidak wajib".data) = true ∧
    distLt (findWordDistance (lowerChars ("Lapor itu tidak wajib bagi warga.".data))
      ("wajib".data) ("tidak wajib".data)) 50 = true ∧
    (pairIssue "wajib" "tidak wajib" ∈
      (checkLogicalConsistency "Lapor itu tidak wajib bagi warga.").issues ∧
      (checkLogicalConsistency "Lapor itu tidak wajib bagi warga.").score ≤ 7) :=
  ⟨by decide, by decide,
   c10_contained_pair_fires "Lapor itu tidak wajib bagi warga." (by decide) (by decide)⟩

/-- C5 (code bug, evaluation): the source computes the misconception needle
with `misconception.replace('_', ' ')`, which replaces only the FIRST
underscore, so the key `pidana_mati_dihapus` is searched for as the literal
`pidana mati_dihapus`.  A response that contains the phrase
"pidana mati dihapus" (the key with all underscores read as spaces, which is
what the claim and the repository's own test expect to be flagged) therefore
produces NO issue at all from the Hallucination check — in particular no
HIGH `HALLUCINATION` issue. -/
theorem c5_misconception_not_flagged :
    jsIncludes (lowerChars ("Menurutnya pidana mati dihapus.".data))
      ("pidana mati dihapus".data) = true ∧
    replaceFirstUnderscore ("pidana_mati_dihapus".data) = "pidana mati_dihapus".data ∧
    (detectHallucinations "Menurutnya pidana mati dihapus.").issues = [] := by
  refine ⟨by decide, by decide, by decide⟩

/-- C6 (code bug, evaluation): `validateResponse` is not deterministic.
`isValidCitationFormat` calls `pattern.test` on the module-level
`CITATION_PATTERNS` regexes (flag `g`), advancing the shared `lastIndex` of
the `/KUHP\s+Pasal\s+(\d+)/gi` pattern to 14; the next call's `matchAll`
clone inherits that `lastIndex` and finds nothing.  Two consecutive calls
with the identical `(query, response)` pair therefore disagree: the first
returns the citation in `sources`, the second returns no sources and a
CRITICAL `MISSING_SOURCE` issue. -/
theorem c6_not_deterministic :
    (validateResponse initCitState "hukum" "KUHP Pasal 362").1.sources =
      ["KUHP Pasal 362"] ∧
    (validateResponse initCitState "hukum" "KUHP Pasal 362").2 =
      [0, 0, 0, 0, 14, 0, 0, 0, 0, 0] ∧
    (validateResponse ((validateResponse initCitState "hukum" "KUHP Pasal 362").2)
      "hukum" "KUHP Pasal 362").1.sources = [] ∧
    missingSourceCriticalIssue ∈
      (validateResponse ((validateResponse initCitState "hukum" "KUHP Pasal 362").2)
        "hukum" "KUHP Pasal 362").1.issues ∧
    (validateResponse ((validateResponse initCitState "hukum" "KUHP Pasal 362").2)
      "hukum" "KUHP Pasal 362").1 ≠
      (validateResponse initCitState "hukum" "KUHP Pasal 362").1 := by
  refine ⟨by decide, by decide, by decide, by decide, by decide⟩

/-- C7 (code bug, evaluation): with the empty response, the Source Citation
check contributes 0 with a CRITICAL issue (so `isValid = false` holds), but
the other six checks still contribute — for the repository's own test input
`('Test query', '')` the total is 0+0+10+10+10+10+6 = 46 of 70, giving
`confidence = 4600/70 = 460/7 ≈ 65.7`, not the 0 the claim (and the
repository's `should handle empty responses` test) states. -/
theorem c7_empty_response_confidence :
    (validateResponse initCitState "Test query" "").1.confidence = 460 / 7 ∧
    ¬((validateResponse initCitState "Test query" "").1.confidence = 0) ∧
    (validateResponse initCitState "Test query" "").1.isValid = false := by
  refine ⟨by decide, by decide, by decide⟩

/-- C8 (counterexample): the defensive malformed-citation branch IS
reachable.  In a response holding the same citation twice, both occurrences
are extracted by the same shared pattern; re-validating the first via
`pattern.test` advances that pattern's `lastIndex` past the citation's
length, so re-validating the second fails every pattern and a LOW
`MISSING_SOURCE` ("Citation format may be incorrect") issue is emitted —
even though extraction and re-validation share the same grammar set. -/
theorem c8_low_issue_reachable :
    formatLowIssue ("KUHP Pasal 362".data) ∈
      (validateSourceCitations initCitState
        "KUHP Pasal 362 dan KUHP Pasal 362").1.issues ∧
    (citationMatches initCitState "KUHP Pasal 362 dan KUHP Pasal 362").length = 2 := by
  refine ⟨by decide, by decide⟩

/-- C9: the `catch` block of `validateResponse` wraps the entire `try` body,
so an internal error during a run yields exactly the fixed fallback result:
`isValid = false`, `confidence = 0`, exactly one issue — of severity CRITICAL,
describing a system failure — an empty sources list, and `validatedText`
equal to the input response (fail-closed; no partial result escapes). -/
theorem c9_fail_closed_fallback (r : String) :
    (validationErrorFallback r).isValid = false ∧
    (validationErrorFallback r).confidence = 0 ∧
    (validationErrorFallback r).issues = [systemErrorIssue] ∧
    systemErrorIssue.severity = Severity.CRITICAL ∧
    systemErrorIssue.type = IssueType.LOW_QUALITY ∧
    (validationErrorFallback r).sources = [] ∧
    (validationErrorFallback r).suggestions = none ∧
    (validationErrorFallback r).validatedText = r :=
  ⟨rfl, rfl, rfl, rfl, rfl, rfl, rfl, rfl⟩

/-! ### Matcher slice lemmas (for the C8 re-validation theorem): the text of
a match is itself a full match of the same pattern. -/

/-- Every element of `takeWhile p l` satisfies `p`. -/
lemma mem_takeWhile_sat {α : Type} (p : α → Bool) :
    ∀ l : List α, ∀ x ∈ l.takeWhile p, p x = true := by
  intro l
  induction l with
  | nil => intro x hx; simp at hx
  | cons a as ih =>
    intro x hx
    rw [List.takeWhile_cons] at hx
    by_cases hpa : p a
    · rw [if_pos hpa] at hx
      rcases List.mem_cons.mp hx with rfl | hmem
      · exact hpa
      · exact ih x hmem
    · rw [if_neg hpa] at hx
      simp at hx

/-- The head of `dropWhile p l` fails `p`. -/
lemma dropWhile_head_false {α : Type} (p : α → Bool) (l : List α) (c : α)
    (cs : List α) (h : l.dropWhile p = c :: cs) : p c = false := by
  have hh := List.head?_dropWhile_not p l
  rw [h] at hh
  exact hh

/-- Re-running a maximal munch on its own munched run followed by a prefix of
its remainder consumes exactly the run again. -/
lemma munch_extend (p : Char → Bool) (l w ws : List Char)
    (hw : l.dropWhile p = w ++ ws) :
    ((l.takeWhile p) ++ w).dropWhile p = w := by
  rw [List.dropWhile_append_of_pos (by
    intro a ha
    exact mem_takeWhile_sat p l a ha)]
  cases w with
  | nil => cases ws with
    | nil => rfl
    | cons e es =>
      have he : p e = false := dropWhile_head_false p l e es (by simpa using hw)
      simp
  | cons d ds =>
    have hd : p d = false := dropWhile_head_false p l d (ds ++ ws) (by simpa using hw)
    simp [List.dropWhile_cons, hd]

/-- A successful case-insensitive literal consume splits the stream, and the
consumed part re-consumes in front of anything. -/
lemma ciConsume_split (p : List Char) : ∀ xs rest : List Char,
    ciConsume p xs = some rest →
      ∃ cs, xs = cs ++ rest ∧ ∀ w, ciConsume p (cs ++ w) = some w := by
  induction p with
  | nil =>
    intro xs rest h
    simp only [ciConsume, Option.some.injEq] at h
    subst h
    exact ⟨[], rfl, fun w => rfl⟩
  | cons a as ih =>
    intro xs rest h
    cases xs with
    | nil => simp [ciConsume] at h
    | cons c cs =>
      simp only [ciConsume] at h
      by_cases hci : charCI a c
      · rw [if_pos hci] at h
        obtain ⟨cs0, heq, hprop⟩ := ih cs rest h
        refine ⟨c :: cs0, by simp [heq], fun w => ?_⟩
        show ciConsume (a :: as) (c :: (cs0 ++ w)) = some w
        simp only [ciConsume, if_pos hci]
        exact hprop w
      · rw [if_neg hci] at h
        exact absurd h (by simp)

/-- A successful token match splits the stream as `consumed ++ rest`, and the
consumed part, followed by any prefix of `rest`, matches leaving exactly that
prefix.  (This is where maximal munch is compatible with truncation: a
nonempty prefix of `rest` starts with `rest`'s head, which the munch already
rejected.) -/
lemma matchTok_split (t : Tok) (xs rest : List Char)
    (h : matchTok t xs = some rest) :
    ∃ cs, xs = cs ++ rest ∧
      ∀ w ws, rest = w ++ ws → matchTok t (cs ++ w) = some w := by
  cases t with
  | lit p =>
    obtain ⟨cs, heq, hprop⟩ := ciConsume_split p xs rest h
    exact ⟨cs, heq, fun w _ _ => hprop w⟩
  | ws1 =>
    cases xs with
    | nil => simp [matchTok] at h
    | cons c cs =>
      simp only [matchTok] at h
      by_cases hc : isJsWs c
      · rw [if_pos hc] at h
        have hrest : cs.dropWhile isJsWs = rest := by simpa using h
        refine ⟨c :: cs.takeWhile isJsWs, by rw [← hrest]; simp, ?_⟩
        intro w ws hsplit
        show matchTok Tok.ws1 (c :: (cs.takeWhile isJsWs ++ w)) = some w
        simp only [matchTok, if_pos hc, Option.some.injEq]
        exact munch_extend isJsWs cs w ws (hrest.trans hsplit)
      · rw [if_neg hc] at h
        exact absurd h (by simp)
  | ws0 =>
    simp only [matchTok, Option.some.injEq] at h
    refine ⟨xs.takeWhile isJsWs, ?_, ?_⟩
    · rw [← h, List.takeWhile_append_dropWhile]
    · intro w ws hsplit
      show some ((xs.takeWhile isJsWs ++ w).dropWhile isJsWs) = some w
      rw [munch_extend isJsWs xs w ws (h.trans hsplit)]
  | optDot =>
    cases xs with
    | nil =>
      simp only [matchTok, Option.some.injEq] at h
      have hrest : rest = [] := h.symm
      subst hrest
      refine ⟨[], rfl, ?_⟩
      intro w ws hsplit
      have hw : w = [] := by
        cases w with
        | nil => rfl
        | cons d ds => simp at hsplit
      subst hw
      rfl
    | cons c cs =>
      simp only [matchTok] at h
      by_cases hc : c = '.'
      · rw [if_pos hc] at h
        have hrest : cs = rest := by simpa using h
        subst hrest
        subst hc
        refine ⟨['.'], rfl, ?_⟩
        intro w ws _
        show matchTok Tok.optDot ('.' :: w) = some w
        simp [matchTok]
      · rw [if_neg hc] at h
        have hrest : c :: cs = rest := by simpa using h
        refine ⟨[], by simpa using hrest, ?_⟩
        intro w ws hsplit
        cases w with
        | nil => rfl
        | cons d ds =>
          have hdc : c = d := by
            rw [← hrest] at hsplit
            injection hsplit
          subst hdc
          show matchTok Tok.optDot (c :: ds) = some (c :: ds)
          simp [matchTok, if_neg hc]
  | digits1 =>
    cases xs with
    | nil => simp [matchTok] at h
    | cons c cs =>
      simp only [matchTok] at h
      by_cases hc : isDigitCh c
      · rw [if_pos hc] at h
        have hrest : cs.dropWhile isDigitCh = rest := by simpa using h
        refine ⟨c :: cs.takeWhile isDigitCh, by rw [← hrest]; simp, ?_⟩
        intro w ws hsplit
        show matchTok Tok.digits1 (c :: (cs.takeWhile isDigitCh ++ w)) = some w
        simp only [matchTok, if_pos hc, Option.some.injEq]
        exact munch_extend isDigitCh cs w ws (hrest.trans hsplit)
      · rw [if_neg hc] at h
        exact absurd h (by simp)
  | digitsN n =>
    simp only [matchTok] at h
    split at h
    case isFalse => exact absurd h (by simp)
    case isTrue hcond =>
      have hrest : xs.drop n = rest := by simpa using h
      have hlen : (xs.take n).length = n := by
        have := hcond
        simp only [Bool.and_eq_true, decide_eq_true_eq] at this
        exact this.1
      have hall : (xs.take n).all isDigitCh = true := by
        have := hcond
        simp only [Bool.and_eq_true, decide_eq_true_eq] at this
        exact this.2
      refine ⟨xs.take n, by rw [← hrest, List.take_append_drop], ?_⟩
      intro w ws hsplit
      show matchTok (Tok.digitsN n) (xs.take n ++ w) = some w
      simp only [matchTok]
      rw [List.take_left' hlen, List.drop_left' hlen, hlen, hall]
      simp
  | alphaOpt =>
    cases xs with
    | nil =>
      simp only [matchTok, Option.some.injEq] at h
      have hrest : rest = [] := h.symm
      subst hrest
      refine ⟨[], rfl, ?_⟩
      intro w ws hsplit
      have hw : w = [] := by
        cases w with
        | nil => rfl
        | cons d ds => simp at hsplit
      subst hw
      rfl
    | cons c cs =>
      simp only [matchTok] at h
      by_cases hc : isAlphaCh c
      · rw [if_pos hc] at h
        have hrest : cs = rest := by simpa using h
        subst hrest
        refine ⟨[c], rfl, ?_⟩
        intro w ws _
        show matchTok Tok.alphaOpt (c :: w) = some w
        simp [matchTok, hc]
      · rw [if_neg hc] at h
        have hrest : c :: cs = rest := by simpa using h
        refine ⟨[], by simpa using hrest, ?_⟩
        intro w ws hsplit
        cases w with
        | nil => rfl
        | cons d ds =>
          have hdc : c = d := by
            rw [← hrest] at hsplit
            injection hsplit
          subst hdc
          show matchTok Tok.alphaOpt (c :: ds) = some (c :: ds)
          simp [matchTok, if_neg hc]
  | alpha1 =>
    cases xs with
    | nil => simp [matchTok] at h
    | cons c cs =>
      simp only [matchTok] at h
      by_cases hc : isAlphaCh c
      · rw [if_pos hc] at h
        have hrest : cs.dropWhile isAlphaCh = rest := by simpa using h
        refine ⟨c :: cs.takeWhile isAlphaCh, by rw [← hrest]; simp, ?_⟩
        intro w ws hsplit
        show matchTok Tok.alpha1 (c :: (cs.takeWhile isAlphaCh ++ w)) = some w
        simp only [matchTok, if_pos hc, Option.some.injEq]
        exact munch_extend isAlphaCh cs w ws (hrest.trans hsplit)
      · rw [if_neg hc] at h
        exact absurd h (by simp)

/-- A successful token-sequence match splits the stream, and truncating the
stream to any point inside the remainder preserves the match up to there. -/
lemma matchToks_split (toks : List Tok) : ∀ xs rest : List Char,
    matchToks toks xs = some rest →
      ∃ cs, xs = cs ++ rest ∧
        ∀ w ws, rest = w ++ ws → matchToks toks (cs ++ w) = some w := by
  induction toks with
  | nil =>
    intro xs rest h
    simp only [matchToks, Option.some.injEq] at h
    subst h
    refine ⟨[], rfl, ?_⟩
    intro w ws hsplit
    show matchToks [] w = some w
    rfl
  | cons t ts ih =>
    intro xs rest h
    simp only [matchToks] at h
    cases hmt : matchTok t xs with
    | none => rw [hmt] at h; exact absurd h (by simp)
    | some xs1 =>
      rw [hmt] at h
      obtain ⟨cs1, heq1, hprop1⟩ := matchTok_split t xs xs1 hmt
      obtain ⟨cs2, heq2, hprop2⟩ := ih xs1 rest h
      refine ⟨cs1 ++ cs2, by rw [heq1, heq2, List.append_assoc], ?_⟩
      intro w ws hsplit
      show matchToks (t :: ts) ((cs1 ++ cs2) ++ w) = some w
      simp only [matchToks]
      rw [List.append_assoc]
      rw [hprop1 (cs2 ++ w) ws (by rw [heq2, hsplit, List.append_assoc])]
      exact hprop2 w ws hsplit

/-- The consumed text of a successful match is itself a complete match of
the same token sequence. -/
lemma matchToks_self (toks : List Tok) (xs rest : List Char)
    (h : matchToks toks xs = some rest) :
    matchToks toks (xs.take (xs.length - rest.length)) = some [] := by
  obtain ⟨cs, heq, hprop⟩ := matchToks_split toks xs rest h
  have hcs : xs.take (xs.length - rest.length) = cs := by
    subst heq
    have hl : (cs ++ rest).length - rest.length = cs.length := by
      rw [List.length_append]
      omega
    rw [hl, List.take_left]
  rw [hcs]
  have hw := hprop [] rest (by simp)
  simpa using hw

/-- Decomposition of a successful `findFrom` search. -/
lemma findFrom_decomp (toks : List Tok) (s : List Char) (li a e : Nat)
    (h : findFrom toks s li = some (a, e)) :
    ∃ rest, matchToks toks (s.drop a) = some rest ∧
      e - a = (s.drop a).length - rest.length := by
  obtain ⟨p, hp, hfp⟩ := List.exists_of_findSome?_eq_some h
  by_cases hle : li ≤ p
  · rw [if_pos hle] at hfp
    obtain ⟨l, hl, hpair⟩ := Option.map_eq_some'.mp hfp
    obtain ⟨rest, hrest, hlen⟩ := Option.map_eq_some'.mp hl
    have hpa : p = a := congrArg Prod.fst hpair
    have hpe : p + l = e := congrArg Prod.snd hpair
    subst hpa
    refine ⟨rest, hrest, ?_⟩
    omega
  · rw [if_neg hle] at hfp
    exact absurd hfp (by simp)

/-- Every text returned by `matchAll` is the consumed part of some
successful match in the subject string. -/
lemma mem_jsMatchAllGo (toks : List Tok) (s : List Char) :
    ∀ (fuel li : Nat) (t : List Char), t ∈ jsMatchAllGo toks s fuel li →
      ∃ a rest, matchToks toks (s.drop a) = some rest ∧
        t = (s.drop a).take ((s.drop a).length - rest.length) := by
  intro fuel
  induction fuel with
  | zero => intro li t ht; simp [jsMatchAllGo] at ht
  | succ n ih =>
    intro li t ht
    rw [jsMatchAllGo] at ht
    cases hff : findFrom toks s li with
    | none => rw [hff] at ht; simp at ht
    | some pe =>
      rw [hff] at ht
      rcases List.mem_cons.mp ht with h1 | h2
      · obtain ⟨rest, hm, hlen⟩ := findFrom_decomp toks s li pe.1 pe.2 (by rw [hff])
        exact ⟨pe.1, rest, hm, by rw [h1, hlen]⟩
      · exact ih _ t h2

/-- Every citation extracted by the Citation Extractor is a complete match
of one of the ten citation patterns. -/
lemma extracted_full_match (st : List Nat) (s t : List Char)
    (ht : t ∈ citationMatchesChars st s) :
    ∃ p ∈ CITATION_PATTERNS, matchToks p t = some [] := by
  obtain ⟨pli, hmem, htm⟩ := List.mem_flatMap.mp ht
  obtain ⟨a, rest, hm, hteq⟩ := mem_jsMatchAllGo pli.1 s _ _ t htm
  refine ⟨pli.1, ?_, ?_⟩
  · exact (List.of_mem_zip (a := pli.1) (b := pli.2) (by simpa using hmem)).1
  · subst hteq
    exact matchToks_self pli.1 (s.drop a) rest hm

/-- A complete match makes `test` succeed from `lastIndex = 0`. -/
lemma jsTest_of_fullMatch (p : List Tok) (t : List Char)
    (h : matchToks p t = some []) : (jsTest p t 0).1 = true := by
  have hmt : matchToksLen p t = some t.length := by
    simp [matchToksLen, h]
  have hff : findFrom p t 0 = some (0, t.length) := by
    rw [findFrom, List.range_succ_eq_map, List.findSome?_cons]
    simp [hmt]
  simp [jsTest, hff]

/-- If some pattern's `test` succeeds from a fresh state, the short-circuit
`some`-fold over the pattern list succeeds from the all-zero state. -/
lemma someTest_true_of_exists (t : List Char) :
    ∀ ps : List (List Tok), (∃ p ∈ ps, (jsTest p t 0).1 = true) →
      (someTest ps (List.replicate ps.length 0) t).1 = true := by
  intro ps
  induction ps with
  | nil => rintro ⟨p, hp, -⟩; simp at hp
  | cons q qs ih =>
    rintro ⟨p, hp, htest⟩
    rw [List.length_cons, List.replicate_succ]
    cases hb : (jsTest q t 0).1 with
    | true => simp [someTest, hb]
    | false =>
      rcases List.mem_cons.mp hp with rfl | hmem
      · rw [hb] at htest; exact absurd htest (by simp)
      · simp only [someTest, hb, Bool.false_eq_true, if_false]
        exact ih ⟨p, hmem, htest⟩

/-- C8 (amended): when the extraction — from the fresh all-zero pattern
state — yields at most one citation, every extracted citation re-matches its
own grammar during format re-validation (extraction and re-validation share
the grammar set and no earlier `test` has moved a `lastIndex`), so no LOW
`MISSING_SOURCE` ("Citation format may be incorrect") issue is emitted.
With two or more citations the branch is reachable (see the
counterexample theorem). -/
theorem c8_single_citation_no_low_issue (r : String)
    (h : (citationMatches initCitState r).length ≤ 1) :
    ∀ i ∈ (validateSourceCitations initCitState r).1.issues,
      i.severity ≠ Severity.LOW := by
  have hlen : (citationMatchesChars initCitState r.data).length ≤ 1 := by
    have hmap : (citationMatches initCitState r).length =
        (citationMatchesChars initCitState r.data).length := by
      simp [citationMatches]
    rw [hmap] at h
    exact h
  have hfmt : (validateFormats (citationMatchesChars initCitState r.data)
      initCitState).1 = [] := by
    cases hf : citationMatchesChars initCitState r.data with
    | nil => simp [validateFormats]
    | cons t ts =>
      cases ts with
      | cons t' ts' =>
        rw [hf] at hlen
        simp at hlen
      | nil =>
        have hmem : t ∈ citationMatchesChars initCitState r.data := by
          rw [hf]
          exact List.mem_cons_self t []
        obtain ⟨p, hp, hfull⟩ := extracted_full_match initCitState r.data t hmem
        have hok : (isValidCitationFormat initCitState t).1 = true := by
          have hrep : initCitState = List.replicate CITATION_PATTERNS.length 0 := rfl
          rw [isValidCitationFormat, hrep]
          exact someTest_true_of_exists t CITATION_PATTERNS
            ⟨p, hp, jsTest_of_fullMatch p t hfull⟩
        simp [validateFormats, hok]
  intro i hi
  have hisplit : i ∈ (if (citationMatchesChars initCitState r.data).length = 0
      then [missingSourceCriticalIssue]
      else if (citationMatchesChars initCitState r.data).length <
          max 1 (r.data.length / 200) then [missingSourceMediumIssue] else []) ++
      (validateFormats (citationMatchesChars initCitState r.data) initCitState).1 := hi
  rw [hfmt, List.append_nil] at hisplit
  split at hisplit
  · have : i = missingSourceCriticalIssue := by simpa using hisplit
    subst this
    decide
  · split at hisplit
    · have : i = missingSourceMediumIssue := by simpa using hisplit
      subst this
      decide
    · simp at hisplit

/-- Witness for the amended C8 at a single-citation response. -/
theorem c8_single_citation_no_low_issue_witness :
    (citationMatches initCitState "Lihat KUHP Pasal 362").length ≤ 1 ∧
    ∀ i ∈ (validateSourceCitations initCitState "Lihat KUHP Pasal 362").1.issues,
      i.severity ≠ Severity.LOW :=
  ⟨by decide, c8_single_citation_no_low_issue "Lihat KUHP Pasal 362" (by decide)⟩
